import Mathlib

/-!
Verification development for the resvg compositing core.

Part 1 embeds `usvg/src/mask.rs`: the `Mask` data type and the `convert`
function that resolves a `mask` element through the per-document definition
cache.  The Rust recursion through the `mask` attribute chain is embedded
with an explicit fuel parameter: a `none` result of `convert` means the
recursion did not terminate within the given fuel, and a result that is
`none` for every fuel witnesses divergence of the source recursion.

Part 2 embeds `resvg-skia/src/lib.rs`: the public entry points
`render_to_image` and `render_node_to_image`.  Their collaborators
(`render::create_root_image`, `render::render_node_to_canvas`,
`usvg::Node::calculate_bbox`) live outside the excerpted sources and are
modelled from the specification, as marked in their doc comments.

Scalar quantities (lengths, coordinates) are modelled as exact fractions
(`Frac`, an integer numerator over an integer denominator, kept
unnormalized so that every operation is a plain integer computation).
-/

namespace Resvg

/-- An exact fraction: the model of the scalar coordinate domain.  Kept
unnormalized; all constructions below use positive denominators. -/
structure Frac where
  num : Int
  den : Int
deriving DecidableEq, Repr

/-- Embed an integer as a fraction. -/
def Frac.ofInt (n : Int) : Frac := ⟨n, 1⟩

/-- Fraction multiplication (no normalization). -/
def Frac.mul (a b : Frac) : Frac := ⟨a.num * b.num, a.den * b.den⟩

/-- Positivity of a fraction. -/
def Frac.pos (a : Frac) : Prop := 0 < a.num * a.den

instance (a : Frac) : Decidable a.pos := by
  unfold Frac.pos
  infer_instance

/-- Truncating conversion to a pixel count (negative values become 0). -/
def Frac.toPixels (a : Frac) : Nat := (a.num / a.den).toNat

/-- `usvg::Units` (`maskUnits` / `maskContentUnits` values). -/
inductive Units where
  | userSpaceOnUse
  | objectBoundingBox
deriving DecidableEq, Repr

/-- `svgtypes::LengthUnit`, restricted to the variants the mask converter
uses: plain user-space numbers and percentages. -/
inductive LengthUnit where
  | num
  | percent
deriving DecidableEq, Repr

/-- `svgtypes::Length`: a number with a unit. -/
structure Length where
  number : Frac
  unit : LengthUnit
deriving DecidableEq, Repr

/-- `rosvgtree::ElementId`, restricted to what the mask converter inspects. -/
inductive EId where
  | mask
  | svg
deriving DecidableEq, Repr

/-- A `rosvgtree::Node` as seen by `mask::convert`: tag name, element id,
the attributes the converter reads, and the drawable children that
`converter::convert_children` would produce for it (abstract labels). -/
structure SvgNode where
  tag_name : Option EId
  element_id : String
  maskUnits : Option Units
  maskContentUnits : Option Units
  x : Option Length
  y : Option Length
  width : Option Length
  height : Option Length
  maskRef : Option String
  contentChildren : List String
deriving DecidableEq, Repr

/-- The document: the set of elements a func-IRI reference can resolve to. -/
structure Document where
  nodes : List SvgNode
deriving DecidableEq, Repr

/-- Element lookup by id, as `rosvgtree` does when a `mask` attribute is
read as a `Node`: an id that matches no element yields no attribute. -/
def Document.getNode (doc : Document) (id : String) : Option SvgNode :=
  doc.nodes.find? (fun n => n.element_id == id)

/-- `node.attribute::<rosvgtree::Node>(AId::Mask)`: resolve the func-IRI
stored in the `mask` attribute against the document. -/
def mask_link (doc : Document) (node : SvgNode) : Option SvgNode :=
  node.maskRef.bind (Document.getNode doc)

/-- `converter::State`, restricted to what length resolution needs: the
viewport dimensions that user-space percentages resolve against. -/
structure State where
  viewportWidth : Frac
  viewportHeight : Frac
deriving DecidableEq, Repr

/-- Axis of a length attribute (`x`/`width` vs `y`/`height`). -/
inductive Axis where
  | horizontal
  | vertical
deriving DecidableEq, Repr

/-- Modelled from the spec: the shared length-resolution collaborator
(`SvgNodeExt::convert_length` lives outside the excerpted sources).  A
percentage is a fraction of the referencing bounding box under
`objectBoundingBox` units and a fraction of the viewport axis under
`userSpaceOnUse` units; plain numbers resolve to themselves. -/
def resolve_length (state : State) (units : Units) (axis : Axis) (len : Length) : Frac :=
  match len.unit with
  | LengthUnit.num => len.number
  | LengthUnit.percent =>
    match units with
    | Units.objectBoundingBox => Frac.mul len.number ⟨1, 100⟩
    | Units.userSpaceOnUse =>
      match axis with
      | Axis.horizontal => Frac.mul (Frac.mul len.number ⟨1, 100⟩) state.viewportWidth
      | Axis.vertical => Frac.mul (Frac.mul len.number ⟨1, 100⟩) state.viewportHeight

/-- Modelled from the spec: `node.convert_length(aid, units, state, def)` —
resolve the attribute when it is present, the supplied default otherwise. -/
def convert_length (attr : Option Length) (units : Units) (state : State)
    (axis : Axis) (dflt : Length) : Frac :=
  resolve_length state units axis (attr.getD dflt)

/-- `usvg::Rect`. -/
structure Rect where
  x : Frac
  y : Frac
  width : Frac
  height : Frac
deriving DecidableEq, Repr

/-- `Rect::new`: a rectangle is valid only when width and height are
positive (fractions are always finite). -/
def Rect.new (x y w h : Frac) : Option Rect :=
  if w.pos ∧ h.pos then some ⟨x, y, w, h⟩ else none

/-- The resolved `maskUnits`, defaulting to `ObjectBoundingBox`. -/
def mask_units (node : SvgNode) : Units :=
  node.maskUnits.getD Units.objectBoundingBox

/-- The resolved `maskContentUnits`, defaulting to `UserSpaceOnUse`. -/
def mask_content_units (node : SvgNode) : Units :=
  node.maskContentUnits.getD Units.userSpaceOnUse

/-- The `Rect::new(..convert_length..)` step of `mask::convert`: the four
attributes resolved in `maskUnits` space with defaults
`-10%`, `-10%`, `120%`, `120%`. -/
def mask_rect (node : SvgNode) (state : State) : Option Rect :=
  Rect.new
    (convert_length node.x (mask_units node) state Axis.horizontal ⟨Frac.ofInt (-10), LengthUnit.percent⟩)
    (convert_length node.y (mask_units node) state Axis.vertical ⟨Frac.ofInt (-10), LengthUnit.percent⟩)
    (convert_length node.width (mask_units node) state Axis.horizontal ⟨Frac.ofInt 120, LengthUnit.percent⟩)
    (convert_length node.height (mask_units node) state Axis.vertical ⟨Frac.ofInt 120, LengthUnit.percent⟩)

/-- `usvg::Mask`.  `root` holds the labels of the drawable children that
`converter::convert_children` placed under the root group. -/
inductive Mask where
  | mk (id : String) (units : Units) (content_units : Units) (rect : Rect)
      (mask : Option Mask) (root : List String)

def Mask.id : Mask → String
  | .mk i _ _ _ _ _ => i

def Mask.units : Mask → Units
  | .mk _ u _ _ _ _ => u

def Mask.content_units : Mask → Units
  | .mk _ _ cu _ _ _ => cu

def Mask.rect : Mask → Rect
  | .mk _ _ _ r _ _ => r

def Mask.mask : Mask → Option Mask
  | .mk _ _ _ _ m _ => m

def Mask.root : Mask → List String
  | .mk _ _ _ _ _ r => r

/-- The mask part of `converter::Cache`: already-converted masks keyed by
element id. -/
structure Cache where
  masks : List (String × Mask)

def Cache.get (c : Cache) (id : String) : Option Mask :=
  (c.masks.find? (fun p => p.1 == id)).map Prod.snd

def Cache.insert (c : Cache) (id : String) (m : Mask) : Cache :=
  ⟨(id, m) :: c.masks⟩

/-- Diagnostics emitted on rejection paths. -/
inductive LogEvent where
  | maskInvalidSize (id : String)
  | nodeZeroSize (id : String)
deriving DecidableEq, Repr

/-- The tail of `mask::convert` after the linked mask has been resolved:
convert the children into the root group; a mask whose root has no
children is invalid, otherwise the mask is built, cached and returned. -/
def convert_finish (node : SvgNode) (rect : Rect) (linked : Option Mask)
    (cache : Cache) (log : List LogEvent) :
    Option Mask × Cache × List LogEvent :=
  if node.contentChildren.isEmpty then
    (none, cache, log)
  else
    (some (Mask.mk node.element_id (mask_units node) (mask_content_units node)
        rect linked node.contentChildren),
      Cache.insert cache node.element_id
        (Mask.mk node.element_id (mask_units node) (mask_content_units node)
          rect linked node.contentChildren),
      log)

/-- Shallow embedding of `convert` from `usvg/src/mask.rs`.  The fuel
bounds the recursion through the `mask` attribute chain; a `none` result
means the source recursion did not return within the given fuel.  The
inner triple is the returned `Option<Rc<Mask>>`, the cache after the call,
and the warnings emitted during the call. -/
def convert (doc : Document) (state : State) :
    Nat → SvgNode → Cache → Option (Option Mask × Cache × List LogEvent)
  | 0, _, _ => none
  | fuel + 1, node, cache =>
    if node.tag_name ≠ some EId.mask then
      some (none, cache, [])
    else
      match Cache.get cache node.element_id with
      | some m => some (some m, cache, [])
      | none =>
        match mask_rect node state with
        | none => some (none, cache, [LogEvent.maskInvalidSize node.element_id])
        | some rect =>
          match mask_link doc node with
          | some link =>
            match convert doc state fuel link cache with
            | none => none
            | some (none, cache₂, log₂) => some (none, cache₂, log₂)
            | some (some lm, cache₂, log₂) =>
              some (convert_finish node rect (some lm) cache₂ log₂)
          | none => some (convert_finish node rect none cache [])

/-! Part 2: the public entry points of `resvg-skia/src/lib.rs`. -/

/-- `usvg::ScreenSize`: integer pixel dimensions. -/
structure ScreenSize where
  width : Nat
  height : Nat
deriving DecidableEq, Repr

/-- `usvg::Color` (RGB). -/
structure Color where
  red : Nat
  green : Nat
  blue : Nat
deriving DecidableEq, Repr

/-- `usvg::FitTo`: the fit policy for the output raster. -/
inductive FitTo where
  | original
  | toWidth (w : Nat)
  | toHeight (h : Nat)
  | zoom (z : Frac)
deriving DecidableEq, Repr

/-- Modelled from the spec: apply the fit policy to the intrinsic size to
obtain the integer pixel dimensions of the output raster (original size;
scale to an explicit width or height keeping proportions; scale by a
factor). -/
def FitTo.fit (f : FitTo) (size : ScreenSize) : ScreenSize :=
  match f with
  | FitTo.original => size
  | FitTo.toWidth w =>
    ⟨w, if size.width = 0 then 0 else size.height * w / size.width⟩
  | FitTo.toHeight h =>
    ⟨if size.height = 0 then 0 else size.width * h / size.height, h⟩
  | FitTo.zoom z =>
    ⟨(Frac.mul z (Frac.ofInt size.width)).toPixels,
      (Frac.mul z (Frac.ofInt size.height)).toPixels⟩

/-- Rendering options (`resvg_skia::Options`, minus the pass-through
`usvg` options that the excerpted entry points never inspect). -/
structure Options where
  fit_to : FitTo
  background : Option Color
deriving DecidableEq, Repr

/-- A recorded draw call: the subtree rendered, the view box and the
target size it was rendered with. -/
structure RenderCall where
  nodeId : String
  viewBoxRect : Rect
  defaultAspect : Bool
  imgSize : ScreenSize
deriving DecidableEq, Repr

/-- A raster surface: its pixel size, the configured background, and the
draw calls issued against it, in order. -/
structure Surface where
  size : ScreenSize
  background : Option Color
  ops : List RenderCall
deriving DecidableEq, Repr

/-- `usvg::ViewBox`: a rectangle plus an aspect-ratio policy; `true` in
`defaultAspect` stands for `usvg::AspectRatio::default()`. -/
structure ViewBox where
  rect : Rect
  defaultAspect : Bool
deriving DecidableEq, Repr

/-- A `usvg::Node` as seen by the entry points: its id, its bounding box
when one is computable (`calculate_bbox`, modelled from the spec: the
bounding geometry query, absent for zero-size nodes), and the view box of
the document it belongs to. -/
structure UNode where
  id : String
  bbox : Option Rect
deriving DecidableEq, Repr

/-- `usvg::Tree`, restricted to what the entry points read: the intrinsic
document size, the document view box and the root node. -/
structure Tree where
  size : ScreenSize
  view_box : ViewBox
  root : UNode
deriving DecidableEq, Repr

/-- Modelled from the spec: `render::create_root_image`.  Applies the fit
policy to the intrinsic size; fails when the effective dimensions are
zero; otherwise allocates a surface of the effective size, pre-filled
with the configured background, and returns both the surface and the
effective size. -/
def create_root_image (size : ScreenSize) (opt : Options) :
    Option (Surface × ScreenSize) :=
  let s := opt.fit_to.fit size
  if s.width = 0 ∨ s.height = 0 then none
  else some (⟨s, opt.background, []⟩, s)

/-- Embedding of `render_node_to_canvas` from `resvg-skia/src/lib.rs`; the
inner `render::render_node_to_canvas` traversal is modelled from the spec
as one draw of the subtree onto the canvas, recorded with the view box and
target size it was given. -/
def render_node_to_canvas (node : UNode) (view_box : ViewBox)
    (img_size : ScreenSize) (canvas : Surface) : Surface :=
  { canvas with
    ops := canvas.ops ++
      [⟨node.id, view_box.rect, view_box.defaultAspect, img_size⟩] }

/-- Embedding of `render_to_canvas` from `resvg-skia/src/lib.rs`: renders
the tree root with the document view box. -/
def render_to_canvas (tree : Tree) (img_size : ScreenSize)
    (canvas : Surface) : Surface :=
  render_node_to_canvas tree.root tree.view_box img_size canvas

/-- Embedding of `render_to_image` from `resvg-skia/src/lib.rs`. -/
def render_to_image (tree : Tree) (opt : Options) : Option Surface :=
  match create_root_image tree.size opt with
  | none => none
  | some (img, img_size) => some (render_to_canvas tree img_size img)

/-- The size of a rectangle converted to integer pixels
(`bbox.size().to_screen_size()`, modelled from the spec). -/
def Rect.to_screen_size (r : Rect) : ScreenSize :=
  ⟨r.width.toPixels, r.height.toPixels⟩

/-- Embedding of `render_node_to_image` from `resvg-skia/src/lib.rs`.
Returns the optional surface together with the warnings emitted. -/
def render_node_to_image (node : UNode) (opt : Options) :
    Option Surface × List LogEvent :=
  match node.bbox with
  | none => (none, [LogEvent.nodeZeroSize node.id])
  | some node_bbox =>
    match create_root_image node_bbox.to_screen_size opt with
    | none => (none, [])
    | some (img, img_size) =>
      (some (render_node_to_canvas node ⟨node_bbox, true⟩ img_size img), [])

/-! Concrete inputs used by the example runs below. -/

/-- The empty definition cache. -/
def emptyCache : Cache := ⟨[]⟩

/-- A converter state with a 100×100 viewport. -/
def cState : State := ⟨Frac.ofInt 100, Frac.ofInt 100⟩

/-- A well-formed `mask` element with one drawable child and every
attribute left unspecified. -/
def wNode : SvgNode :=
  ⟨some EId.mask, "m", none, none, none, none, none, none, none, ["c1"]⟩

/-- A document holding just `wNode`. -/
def wDoc : Document := ⟨[wNode]⟩

/-- The mask that converting `wNode` produces. -/
def wMask : Mask :=
  Mask.mk "m" Units.objectBoundingBox Units.userSpaceOnUse
    ⟨⟨-10, 100⟩, ⟨-10, 100⟩, ⟨120, 100⟩, ⟨120, 100⟩⟩ none ["c1"]

/-- The cache after converting `wNode` from the empty cache. -/
def wCache : Cache := Cache.insert emptyCache "m" wMask

/-- A `mask` element whose `mask` attribute references itself. -/
def selfNode : SvgNode :=
  ⟨some EId.mask, "self", none, none, none, none, none, none, some "self", ["child"]⟩

/-- A document holding just `selfNode`. -/
def selfDoc : Document := ⟨[selfNode]⟩

/-- A `mask` element whose converted content subtree has no children. -/
def e0Node : SvgNode :=
  ⟨some EId.mask, "e0", none, none, none, none, none, none, none, []⟩

/-- A `mask` element with an explicit zero width (an invalid rectangle). -/
def badNode : SvgNode :=
  ⟨some EId.mask, "bad", none, none, none, none,
    some ⟨Frac.ofInt 0, LengthUnit.num⟩, none, none, ["c1"]⟩

/-- A `mask` element chaining (via `mask`) to `e0Node`, whose resolution
fails. -/
def outerNode : SvgNode :=
  ⟨some EId.mask, "outer", none, none, none, none, none, none, some "e0", ["k"]⟩

/-- A document holding `outerNode` and its failing link target `e0Node`. -/
def chainDoc : Document := ⟨[outerNode, e0Node]⟩

/-- An element that is not a `mask` element. -/
def svgNode : SvgNode :=
  ⟨some EId.svg, "root", none, none, none, none, none, none, none, ["c1"]⟩

/-- Default rendering options: original size, transparent background. -/
def wOptions : Options := ⟨FitTo.original, none⟩

/-- A node without a computable bounding box. -/
def zeroNode : UNode := ⟨"zero", none⟩

/-- A 4×3 bounding box. -/
def goodBBox : Rect := ⟨⟨0, 1⟩, ⟨0, 1⟩, ⟨4, 1⟩, ⟨3, 1⟩⟩

/-- A node whose bounding box is `goodBBox`. -/
def goodNode : UNode := ⟨"ok", some goodBBox⟩

/-- The root surface allocated for a 4×3 output. -/
def goodSurface : Surface := ⟨⟨4, 3⟩, none, []⟩

/-! Theorems.  First the shared inversion lemmas about `convert`, then one
theorem per specification claim. -/

/-- Looking up an id right after inserting it returns the inserted mask. -/
theorem Cache.get_insert (c : Cache) (id : String) (m : Mask) :
    Cache.get (Cache.insert c id m) id = some m := by
  simp [Cache.get, Cache.insert, List.find?]

/-- Inversion for `convert_finish`: a successfully built mask is exactly
the record assembled from the node, it is stored in the cache under the
node's element id, and the content subtree was non-empty. -/
theorem convert_finish_some (node : SvgNode) (rect : Rect) (linked : Option Mask)
    (cache cache₂ : Cache) (log log₂ : List LogEvent) (m : Mask)
    (h : convert_finish node rect linked cache log = (some m, cache₂, log₂)) :
    m = Mask.mk node.element_id (mask_units node) (mask_content_units node)
        rect linked node.contentChildren ∧
      cache₂ = Cache.insert cache node.element_id m ∧
      node.contentChildren ≠ [] := by
  unfold convert_finish at h
  split at h
  · simp at h
  next hne =>
    simp only [Prod.mk.injEq, Option.some.injEq] at h
    obtain ⟨h1, h2, h3⟩ := h
    refine ⟨h1.symm, ?_, by simpa [List.isEmpty_iff] using hne⟩
    rw [← h2, h1]

/-- Inversion for `convert`: a successful resolution implies the source
element was a `mask` element and the returned mask is stored in the
resulting cache under the element id. -/
theorem convert_success_cached (doc : Document) (state : State) (fuel : Nat)
    (node : SvgNode) (cache cache₂ : Cache) (m : Mask) (log : List LogEvent)
    (h : convert doc state fuel node cache = some (some m, cache₂, log)) :
    node.tag_name = some EId.mask ∧ Cache.get cache₂ node.element_id = some m := by
  match fuel with
  | 0 => simp [convert] at h
  | fuel + 1 =>
    simp only [convert] at h
    split at h
    · simp at h
    next htag =>
      rw [ne_eq, not_not] at htag
      refine ⟨htag, ?_⟩
      split at h
      next m₀ hget =>
        simp only [Option.some.injEq, Prod.mk.injEq] at h
        obtain ⟨h1, h2, h3⟩ := h
        rw [← h2, ← h1]
        exact hget
      next hget =>
        split at h
        · simp at h
        next rect hrect =>
          split at h
          next link hlink =>
            split at h
            · simp at h
            next cache₃ log₃ hrec => simp at h
            next lm cache₃ log₃ hrec =>
              rw [Option.some.injEq] at h
              obtain ⟨hm, hc, hne⟩ :=
                convert_finish_some node rect (some lm) cache₃ cache₂ log₃ log m h
              rw [hc]
              exact Cache.get_insert cache₃ node.element_id m
          next hlink =>
            rw [Option.some.injEq] at h
            obtain ⟨hm, hc, hne⟩ :=
              convert_finish_some node rect none cache cache₂ [] log m h
            rw [hc]
            exact Cache.get_insert cache node.element_id m

/-- Inversion for `convert`: a resolution that succeeds on a cache miss
built the mask from the node itself — its id, unit modes, rectangle and
content children all come from the source element, and the content
subtree was non-empty. -/
theorem convert_success_build (doc : Document) (state : State) (fuel : Nat)
    (node : SvgNode) (cache cache₂ : Cache) (m : Mask) (log : List LogEvent)
    (hmiss : Cache.get cache node.element_id = none)
    (h : convert doc state fuel node cache = some (some m, cache₂, log)) :
    m.id = node.element_id ∧ m.units = mask_units node ∧
      m.content_units = mask_content_units node ∧
      mask_rect node state = some m.rect ∧
      m.root = node.contentChildren ∧ node.contentChildren ≠ [] := by
  match fuel with
  | 0 => simp [convert] at h
  | fuel + 1 =>
    simp only [convert] at h
    split at h
    · simp at h
    next htag =>
      split at h
      next m₀ hget => rw [hmiss] at hget; simp at hget
      next hget =>
        split at h
        · simp at h
        next rect hrect =>
          split at h
          next link hlink =>
            split at h
            · simp at h
            next cache₃ log₃ hrec => simp at h
            next lm cache₃ log₃ hrec =>
              rw [Option.some.injEq] at h
              obtain ⟨hm, hc, hne⟩ :=
                convert_finish_some node rect (some lm) cache₃ cache₂ log₃ log m h
              subst hm
              exact ⟨rfl, rfl, rfl, hrect.symm ▸ rfl, rfl, hne⟩
          next hlink =>
            rw [Option.some.injEq] at h
            obtain ⟨hm, hc, hne⟩ :=
              convert_finish_some node rect none cache cache₂ [] log m h
            subst hm
            exact ⟨rfl, rfl, rfl, hrect.symm ▸ rfl, rfl, hne⟩

/-- C1: the claim says resolution of a self-referential mask chain
terminates and returns None.  On the code it does not: `convert` inserts
into the cache only after the recursive call on the linked mask, so for a
self-referential `mask` element (valid rectangle, empty cache) the
recursion never returns — in the fuel embedding, no amount of fuel makes
`convert` produce a result. -/
theorem convert_self_referential_mask_diverges :
    ∀ fuel : Nat, convert selfDoc cState fuel selfNode emptyCache = none := by
  intro fuel
  induction fuel with
  | zero => rfl
  | succ n ih =>
    have htag : selfNode.tag_name = some EId.mask := rfl
    have hget : Cache.get emptyCache selfNode.element_id = none := rfl
    have hrect : mask_rect selfNode cState =
        some ⟨⟨-10, 100⟩, ⟨-10, 100⟩, ⟨120, 100⟩, ⟨120, 100⟩⟩ := rfl
    have hlink : mask_link selfDoc selfNode = some selfNode := rfl
    simp only [convert, htag, hget, hrect, hlink, ih, ne_eq, not_true_eq_false,
      if_false]

/-- C2: once a source element has been resolved successfully, resolving it
again against the resulting cache is a pure cache hit: the identical
stored mask is returned (structural identity stands in for the shared
`Rc`), the cache is left unchanged and no re-conversion work or warning
happens. -/
theorem convert_second_resolution_is_cache_hit (doc : Document) (state : State)
    (fuel fuel₂ : Nat) (node : SvgNode) (cache cache₂ : Cache) (m : Mask)
    (log : List LogEvent)
    (h : convert doc state fuel node cache = some (some m, cache₂, log)) :
    convert doc state (fuel₂ + 1) node cache₂ = some (some m, cache₂, []) := by
  obtain ⟨htag, hget⟩ := convert_success_cached doc state fuel node cache cache₂ m log h
  simp only [convert, htag, hget, ne_eq, not_true_eq_false, if_false]

/-- Witness for C2: converting `wNode` once succeeds with mask `wMask` and
cache `wCache`; converting it again against `wCache` returns the identical
mask with the cache unchanged. -/
theorem convert_second_resolution_is_cache_hit_witness :
    convert wDoc cState 1 wNode wCache = some (some wMask, wCache, []) :=
  convert_second_resolution_is_cache_hit wDoc cState 1 0 wNode emptyCache wCache
    wMask [] rfl

/-- C3: a `mask` element (not already cached) whose converted content
subtree has no children resolves to None rather than to a mask with an
empty root group. -/
theorem convert_empty_content_returns_none (doc : Document) (state : State)
    (fuel : Nat) (node : SvgNode) (cache cache₂ : Cache) (res : Option Mask)
    (log : List LogEvent)
    (hchild : node.contentChildren = [])
    (hmiss : Cache.get cache node.element_id = none)
    (h : convert doc state fuel node cache = some (res, cache₂, log)) :
    res = none := by
  cases res with
  | none => rfl
  | some m =>
    obtain ⟨_, _, _, _, _, hne⟩ :=
      convert_success_build doc state fuel node cache cache₂ m log hmiss h
    exact absurd hchild hne

/-- Witness for C3: converting the childless mask element `e0Node` from
the empty cache terminates and returns None. -/
theorem convert_empty_content_returns_none_witness :
    convert chainDoc cState 1 e0Node emptyCache = some (none, emptyCache, []) ∧
      (none : Option Mask) = none :=
  ⟨rfl, convert_empty_content_returns_none chainDoc cState 1 e0Node emptyCache
    emptyCache none [] rfl rfl rfl⟩

/-- C4: a `mask` element that leaves `x`, `y`, `width`, `height` (and
`maskUnits`, so that the unit space is the default bounding-box-relative
one) unspecified resolves to the rectangle x = −10/100, y = −10/100,
width = 120/100, height = 120/100 — that is, exactly −10%, −10%, 120%,
120% of the referencing bounding box. -/
theorem convert_unspecified_rect_defaults (doc : Document) (state : State)
    (fuel : Nat) (node : SvgNode) (cache cache₂ : Cache) (m : Mask)
    (log : List LogEvent)
    (hu : node.maskUnits = none) (hx : node.x = none) (hy : node.y = none)
    (hw : node.width = none) (hh : node.height = none)
    (hmiss : Cache.get cache node.element_id = none)
    (h : convert doc state fuel node cache = some (some m, cache₂, log)) :
    m.rect = ⟨⟨-10, 100⟩, ⟨-10, 100⟩, ⟨120, 100⟩, ⟨120, 100⟩⟩ := by
  obtain ⟨_, _, _, hrect, _, _⟩ :=
    convert_success_build doc state fuel node cache cache₂ m log hmiss h
  have hval : mask_rect node state =
      some ⟨⟨-10, 100⟩, ⟨-10, 100⟩, ⟨120, 100⟩, ⟨120, 100⟩⟩ := by
    simp [mask_rect, convert_length, resolve_length, mask_units, hu, hx, hy, hw, hh,
      Rect.new, Frac.mul, Frac.ofInt, Frac.pos]
  rw [hval] at hrect
  exact (Option.some.inj hrect).symm

/-- Witness for C4: converting `wNode` (all attributes unspecified)
produces `wMask`, whose rectangle is the default −10%, −10%, 120%, 120%
box. -/
theorem convert_unspecified_rect_defaults_witness :
    wMask.rect = ⟨⟨-10, 100⟩, ⟨-10, 100⟩, ⟨120, 100⟩, ⟨120, 100⟩⟩ :=
  convert_unspecified_rect_defaults wDoc cState 1 wNode emptyCache wCache wMask []
    rfl rfl rfl rfl rfl rfl rfl

/-- C5: when a `mask` element (not already cached) links to another mask
through its `mask` attribute and that nested resolution terminates with
None, the outer resolution also terminates with None — the chain failure
is never dropped while keeping the outer mask. -/
theorem convert_failed_linked_mask_fails_outer (doc : Document) (state : State)
    (fuel : Nat) (node link : SvgNode) (cache cache₂ : Cache) (log₂ : List LogEvent)
    (htag : node.tag_name = some EId.mask)
    (hmiss : Cache.get cache node.element_id = none)
    (hlink : mask_link doc node = some link)
    (hnested : convert doc state fuel link cache = some (none, cache₂, log₂)) :
    ∃ cache₃ log₃,
      convert doc state (fuel + 1) node cache = some (none, cache₃, log₃) := by
  cases hrect : mask_rect node state with
  | none =>
    refine ⟨cache, [LogEvent.maskInvalidSize node.element_id], ?_⟩
    simp only [convert, htag, hmiss, hrect, ne_eq, not_true_eq_false, if_false]
  | some rect =>
    refine ⟨cache₂, log₂, ?_⟩
    simp only [convert, htag, hmiss, hrect, hlink, hnested, ne_eq, not_true_eq_false,
      if_false]

/-- Witness for C5: `outerNode` links to the childless mask `e0Node`,
whose resolution returns None, so the outer resolution returns None. -/
theorem convert_failed_linked_mask_fails_outer_witness :
    ∃ cache₃ log₃,
      convert chainDoc cState 2 outerNode emptyCache = some (none, cache₃, log₃) :=
  convert_failed_linked_mask_fails_outer chainDoc cState 1 outerNode e0Node
    emptyCache emptyCache [] rfl rfl rfl rfl

/-- C6: a `mask` element (not already cached) whose resolved rectangle is
invalid (non-positive width or height) makes `convert` return None and
emit exactly the invalid-size warning; the cache is untouched and no
fatal state exists in this interface at all. -/
theorem convert_invalid_rect_warns_and_returns_none (doc : Document) (state : State)
    (fuel : Nat) (node : SvgNode) (cache : Cache)
    (htag : node.tag_name = some EId.mask)
    (hmiss : Cache.get cache node.element_id = none)
    (hrect : mask_rect node state = none) :
    convert doc state (fuel + 1) node cache =
      some (none, cache, [LogEvent.maskInvalidSize node.element_id]) := by
  simp only [convert, htag, hmiss, hrect, ne_eq, not_true_eq_false, if_false]

/-- Witness for C6: `badNode` has an explicit zero width, so its
conversion warns and returns None. -/
theorem convert_invalid_rect_warns_and_returns_none_witness :
    convert wDoc cState 1 badNode emptyCache =
      some (none, emptyCache, [LogEvent.maskInvalidSize "bad"]) :=
  convert_invalid_rect_warns_and_returns_none wDoc cState 0 badNode emptyCache
    rfl rfl rfl

/-- C7: `render_to_image` returns None exactly when root image creation
fails, and otherwise returns the surface obtained by rendering the whole
document onto the freshly created root image at the computed effective
size. -/
theorem render_to_image_none_iff_root_image_fails (tree : Tree) (opt : Options) :
    (render_to_image tree opt = none ↔ create_root_image tree.size opt = none) ∧
      render_to_image tree opt =
        (create_root_image tree.size opt).map
          (fun p => render_to_canvas tree p.2 p.1) := by
  cases h : create_root_image tree.size opt with
  | none => simp [render_to_image, h]
  | some p => cases p with
    | mk img sz => simp [render_to_image, h]

/-- C8: `render_node_to_image` warns and returns None when the node has no
computable bounding box; when the bounding box is computable and the root
image can be created, it renders the subtree with an implicit view box
whose rectangle is exactly that bounding box, with the default aspect
ratio policy. -/
theorem render_node_to_image_bbox_viewbox (node : UNode) (opt : Options) :
    (node.bbox = none →
      render_node_to_image node opt = (none, [LogEvent.nodeZeroSize node.id])) ∧
      (∀ b img sz, node.bbox = some b →
        create_root_image b.to_screen_size opt = some (img, sz) →
        render_node_to_image node opt =
          (some (render_node_to_canvas node ⟨b, true⟩ sz img), [])) := by
  constructor
  · intro hb
    simp [render_node_to_image, hb]
  · intro b img sz hb hc
    simp [render_node_to_image, hb, hc]

/-- Witness for C8: the bbox-less `zeroNode` warns and returns None, and
`goodNode` (4×3 bounding box) is rendered with the view box equal to its
bounding box onto a fresh 4×3 surface. -/
theorem render_node_to_image_bbox_viewbox_witness :
    render_node_to_image zeroNode wOptions = (none, [LogEvent.nodeZeroSize "zero"]) ∧
      render_node_to_image goodNode wOptions =
        (some (render_node_to_canvas goodNode ⟨goodBBox, true⟩ ⟨4, 3⟩ goodSurface),
          []) :=
  ⟨(render_node_to_image_bbox_viewbox zeroNode wOptions).1 rfl,
    (render_node_to_image_bbox_viewbox goodNode wOptions).2 goodBBox goodSurface
      ⟨4, 3⟩ rfl rfl⟩

/-- C9: a source element whose tag name is not `mask` (or is absent) makes
`convert` return None immediately, with the cache unchanged and no
warning emitted. -/
theorem convert_non_mask_element_returns_none (doc : Document) (state : State)
    (fuel : Nat) (node : SvgNode) (cache : Cache)
    (htag : node.tag_name ≠ some EId.mask) :
    convert doc state (fuel + 1) node cache = some (none, cache, []) := by
  simp only [convert, if_pos htag]

/-- Witness for C9: converting the `svg` element `svgNode` returns None
without touching the cache. -/
theorem convert_non_mask_element_returns_none_witness :
    convert wDoc cState 1 svgNode emptyCache = some (none, emptyCache, []) :=
  convert_non_mask_element_returns_none wDoc cState 0 svgNode emptyCache
    (by decide)

/-- C10: a `mask` element (not already cached) that omits both unit
attributes resolves with `units = ObjectBoundingBox` and
`content_units = UserSpaceOnUse` — the two defaults are asymmetric. -/
theorem convert_default_units_asymmetric (doc : Document) (state : State)
    (fuel : Nat) (node : SvgNode) (cache cache₂ : Cache) (m : Mask)
    (log : List LogEvent)
    (hu : node.maskUnits = none) (hcu : node.maskContentUnits = none)
    (hmiss : Cache.get cache node.element_id = none)
    (h : convert doc state fuel node cache = some (some m, cache₂, log)) :
    m.units = Units.objectBoundingBox ∧ m.content_units = Units.userSpaceOnUse := by
  obtain ⟨_, hunits, hcunits, _, _, _⟩ :=
    convert_success_build doc state fuel node cache cache₂ m log hmiss h
  rw [hunits, hcunits]
  simp [mask_units, mask_content_units, hu, hcu]

/-- Witness for C10: converting `wNode` (no unit attributes) yields
`wMask` with the asymmetric unit defaults. -/
theorem convert_default_units_asymmetric_witness :
    wMask.units = Units.objectBoundingBox ∧
      wMask.content_units = Units.userSpaceOnUse :=
  convert_default_units_asymmetric wDoc cState 1 wNode emptyCache wCache wMask []
    rfl rfl rfl rfl

end Resvg
